import Mathlib

/-!
Verification of the provisioning scripts in `boto3Infracreation/`
(`infrawithNAT.py`, `infraLatest.py`, `infracreationWithALB.py`) against
their natural-language specification.  Each script's functions are shallowly
embedded as pure Lean functions over an explicit model of the provider's
state; each script's `main` is transcribed as a `ProvisioningPlan` (the
ordered list of resource-creating steps together with the identifiers the
source actually threads between calls).
-/

/-- Resource kinds, following the spec's `ResourceSpec.kind` enumeration. -/
inductive ResKind where
  | VirtualNetwork
  | Gateway
  | Subnet
  | RouteTable
  | RouteAssociation
  | AddressTranslator
  | SecurityGroup
  | KeyPair
  | LaunchTemplate
  | LoadBalancer
  | TargetGroup
  | Listener
  | ScalingGroup
deriving DecidableEq, Repr

/-- One step of a provisioning plan: its logical output name, its resource
kind, the logical names of previously-bound outputs the source code passes
into it, and whether the source invokes a provider readiness wait for it. -/
structure ResourceSpec where
  name : String
  kind : ResKind
  inputs : List String
  waited : Bool := false
deriving DecidableEq, Repr

/-- Modelled from the spec: the Dependency Graph Executor (spec section 4.3);
the scripts under `src/` are flat sequential calls, so the executor that
walks a `ProvisioningPlan`, checks each step's declared inputs against the
context of already-bound names, and binds the step's output, is transcribed
from the spec's words.  Returns `none` on an `UnresolvedDependency`. -/
def runPlan : List ResourceSpec → List String → Option (List String)
  | [], ctx => some ctx
  | s :: rest, ctx =>
      if s.inputs.all (fun n => ctx.contains n) then
        runPlan rest (s.name :: ctx)
      else
        none

/-- A single ingress permission, as passed to `authorize_ingress`:
protocol, port range, CIDR sources (`IpRanges`), and security-group
sources (`UserIdGroupPairs`). -/
structure IpPermission where
  protocol : String
  fromPort : Nat
  toPort : Nat
  cidrSources : List String
  groupSources : List String
deriving DecidableEq, Repr

/-- Launch-template data as passed to `create_launch_template`
(`LaunchTemplateData`). -/
structure LtData where
  imageId : String
  instanceType : String
  keyName : String
  sgIds : List String
  userData : String
deriving DecidableEq, Repr

/-- A virtual network known to the provider, with the `isDefault`
attribute the scripts filter on. -/
structure Vpc where
  id : String
  isDefault : Bool
deriving DecidableEq, Repr

/-- Provider operations a run can perform, recorded as a trace. -/
inductive Op where
  | createVpc (cidr : String)
  | createIgw (vpcId : String)
  | createSubnet (vpcId cidr az : String)
  | createRouteTable (vpcId : String)
  | createRoute (rtId dest target : String)
  | associateRouteTable (rtId subnetId : String)
  | allocateAddress
  | createNatGateway (subnetId : String)
  | createSecurityGroup (groupName vpcId : String)
  | authorizeIngress (sgId : String) (perms : List IpPermission)
  | createKeyPair (keyName : String)
  | createLaunchTemplate (ltName : String) (data : LtData)
  | createLoadBalancer (lbName : String) (subnets sgs : List String)
  | createTargetGroup (tgName vpcId : String)
  | createListener (albArn tgArn : String)
  | createAsg (asgName ltId : String) (subnets tgArns : List String)
deriving DecidableEq, Repr

/-- True when the operation is a route-table/subnet association. -/
def Op.isRouteAssoc : Op → Bool
  | .associateRouteTable _ _ => true
  | _ => false

/-- The availability zone of a subnet-creation operation. -/
def Op.subnetAz : Op → Option String
  | .createSubnet _ _ az => some az
  | _ => none

namespace NAT

/-! Embedding of `infrawithNAT.py`. -/

def PROJECT : String := "vijay-fullstack-nat"

def VPC_CIDR : String := "10.201.0.0/16"

def PUBLIC_SUBNET_CIDRS : List String := ["10.201.1.0/24", "10.201.2.0/24"]

def PRIVATE_SUBNET_CIDRS : List String := ["10.201.101.0/24", "10.201.102.0/24"]

def AMI_ID : String := "ami-04e601abe3e1a910f"

def INSTANCE_TYPE : String := "t3.medium"

def KEY_NAME : String := PROJECT ++ "-key"

def LAUNCH_TEMPLATE_NAME : String := PROJECT ++ "-lt"

/-- Embeds `choose_azs`: the list of zone names the provider reports,
truncated to the first two (`azs[0:2]`). -/
def choose_azs (providerAzs : List String) : List String :=
  providerAzs.take 2

/-- State of the provider consulted by `create_vpc`:
`createErr = none` means the `create_vpc` call succeeds with a fresh id;
`some code` means it raises a `ClientError` with that error code.
`vpcs` are the virtual networks already present in the account. -/
structure VpcWorld where
  createErr : Option String
  vpcs : List Vpc
deriving Repr

/-- Embeds `create_vpc` of `infrawithNAT.py`: try to create; on a
`VpcLimitExceeded` client error, reuse the first existing non-default
VPC if one exists, else re-raise; any other error re-raises. -/
def create_vpc (w : VpcWorld) (freshId : String) : Except String String :=
  match w.createErr with
  | none => .ok freshId
  | some code =>
      if code = "VpcLimitExceeded" then
        match (w.vpcs.filter (fun v => ¬ v.isDefault)).head? with
        | some v => .ok v.id
        | none => .error code
      else
        .error code

/-- A subnet created by `create_subnets`. -/
structure SubnetRec where
  id : String
  cidr : String
  az : String
deriving DecidableEq, Repr

/-- Embeds the per-zone loop body of `create_subnets`: for zone index
`idx`, the public and private CIDRs are taken positionally
(`PUBLIC_SUBNET_CIDRS[idx]`, `PRIVATE_SUBNET_CIDRS[idx]`; a missing
entry is Python's `IndexError`); the public subnet is associated with
the public route table inside the loop.  Returns (public subnets,
private subnets, route-table associations, provider operations in
call order). -/
def create_subnets_go (vpcId pubRtId : String) (idx : Nat) :
    List String →
    Except String (List SubnetRec × List SubnetRec × List (String × String) × List Op)
  | [] => .ok ([], [], [], [])
  | az :: rest =>
      match PUBLIC_SUBNET_CIDRS.get? idx, PRIVATE_SUBNET_CIDRS.get? idx with
      | some pubCidr, some privCidr =>
          match create_subnets_go vpcId pubRtId (idx + 1) rest with
          | .ok (pubs, privs, assocs, ops) =>
              .ok (⟨"pub-subnet-" ++ toString idx, pubCidr, az⟩ :: pubs,
                   ⟨"priv-subnet-" ++ toString idx, privCidr, az⟩ :: privs,
                   (pubRtId, "pub-subnet-" ++ toString idx) :: assocs,
                   Op.createSubnet vpcId pubCidr az ::
                     Op.associateRouteTable pubRtId ("pub-subnet-" ++ toString idx) ::
                     Op.createSubnet vpcId privCidr az :: ops)
          | .error e => .error e
      | _, _ => .error "IndexError"

/-- Embeds `create_subnets` of `infrawithNAT.py`. -/
def create_subnets (vpcId pubRtId : String) (azs : List String) :
    Except String (List SubnetRec × List SubnetRec × List (String × String) × List Op) :=
  create_subnets_go vpcId pubRtId 0 azs

/-- Result of `create_nat_and_private_route`: the NAT gateway's id, the
public subnet it was placed in, and the private route table's id. -/
structure NatResult where
  natId : String
  natSubnetId : String
  privRtId : String
deriving DecidableEq, Repr

/-- Embeds `create_nat_and_private_route` of `infrawithNAT.py`: allocates
an address, creates exactly one NAT gateway in the given public subnet,
waits for it, then creates the private route table with a default route
to the NAT. -/
def create_nat_and_private_route (publicSubnetId : String) : NatResult :=
  ⟨"nat-0", publicSubnetId, "priv-rt-0"⟩

/-- A security group together with the ingress permissions authorized
on it. -/
structure SgRec where
  id : String
  groupName : String
  ingress : List IpPermission
deriving DecidableEq, Repr

/-- Embeds `create_security_groups` of `infrawithNAT.py`: the ALB group
allows HTTP from `0.0.0.0/0`; the EC2 group allows HTTP from the ALB
group's id (`UserIdGroupPairs`) and SSH from `0.0.0.0/0`. -/
def create_security_groups : SgRec × SgRec :=
  let albSg : SgRec :=
    ⟨"sg-alb", PROJECT ++ "-alb-sg",
      [⟨"tcp", 80, 80, ["0.0.0.0/0"], []⟩]⟩
  let ec2Sg : SgRec :=
    ⟨"sg-ec2", PROJECT ++ "-ec2-sg",
      [⟨"tcp", 80, 80, [], [albSg.id]⟩,
       ⟨"tcp", 22, 22, ["0.0.0.0/0"], []⟩]⟩
  (albSg, ec2Sg)

/-- Embeds `create_keypair` of `infrawithNAT.py` over a provider where
`keyExists` says whether a key pair of name `KEY_NAME` already exists
(in which case `create_key_pair` raises `InvalidKeyPair.Duplicate`,
which is caught and recovered).  Returns whether key material was
written to disk this run. -/
def create_keypair (keyExists : Bool) : Except String Bool :=
  if keyExists then .ok false else .ok true

/-- Provider state consulted by `create_launch_template`: the id and
stored data of an existing launch template of name
`LAUNCH_TEMPLATE_NAME`, if any. -/
structure LtWorld where
  existingLt : Option (String × LtData)
deriving Repr

/-- Embeds `create_launch_template` of `infrawithNAT.py`: try to create;
on `InvalidLaunchTemplateName.AlreadyExistsException`, look the template
up by name and return its id verbatim.  Returns the template id and the
data of the newly created template (`none` when reused). -/
def create_launch_template (w : LtWorld) (sgId freshId : String) :
    String × Option LtData :=
  match w.existingLt with
  | none =>
      (freshId, some ⟨AMI_ID, INSTANCE_TYPE, KEY_NAME, [sgId], "userdata-httpd"⟩)
  | some (ltId, _) => (ltId, none)

/-- Embeds `create_auto_scaling_group` of `infrawithNAT.py`: the group
is created from the launch template over the private subnets with the
target group attached (`TargetGroupARNs=[target_group_arn]`). -/
def create_auto_scaling_group (ltId : String) (subnetIds : List String)
    (tgArn : String) : Op :=
  Op.createAsg (PROJECT ++ "-asg") ltId subnetIds [tgArn]

/-- Embeds the network portion of `main` of `infrawithNAT.py` (lines
308-316): create the subnets, place the NAT gateway in the first public
subnet, then associate the private route table with every private
subnet.  Returns (public subnets, private subnets, NAT result, all
route-table associations in creation order). -/
def build_network (vpcId pubRtId : String) (azs : List String) :
    Except String (List SubnetRec × List SubnetRec × NatResult × List (String × String)) :=
  match create_subnets vpcId pubRtId azs with
  | .error e => .error e
  | .ok (pubs, privs, pubAssocs, _ops) =>
      match pubs.head? with
      | none => .error "IndexError"
      | some p0 =>
          let nr := create_nat_and_private_route p0.id
          .ok (pubs, privs, nr,
               pubAssocs ++ privs.map (fun s => (nr.privRtId, s.id)))

/-- Embeds `main` of `infrawithNAT.py` end to end: the availability-zone
check runs before any resource-creating call (`sys.exit(1)` when fewer
than two zones are returned), and on the happy path the trace records
every provider creation and association in the script's call order. -/
def main_run (providerAzs : List String) (w : VpcWorld) (keyExists : Bool)
    (ltw : LtWorld) : Except String Unit × List Op :=
  let azs := choose_azs providerAzs
  if azs.length < 2 then (.error "InsufficientZones", [])
  else
    match create_vpc w "vpc-new" with
    | .error e => (.error e, [])
    | .ok vpcId =>
        let vpcOps : List Op :=
          if w.createErr = none then [Op.createVpc VPC_CIDR] else []
        let igwOps : List Op :=
          [Op.createIgw vpcId, Op.createRouteTable vpcId,
           Op.createRoute "pub-rt-0" "0.0.0.0/0" "igw-0"]
        match create_subnets vpcId "pub-rt-0" azs with
        | .error e => (.error e, vpcOps ++ igwOps)
        | .ok (pubs, privs, _assocs, subnetOps) =>
            match pubs.head? with
            | none => (.error "IndexError", vpcOps ++ igwOps ++ subnetOps)
            | some p0 =>
                let nr := create_nat_and_private_route p0.id
                let natOps : List Op :=
                  [Op.allocateAddress, Op.createNatGateway p0.id,
                   Op.createRouteTable vpcId,
                   Op.createRoute nr.privRtId "0.0.0.0/0" nr.natId]
                let privAssocOps :=
                  privs.map fun s => Op.associateRouteTable nr.privRtId s.id
                let (albSg, ec2Sg) := create_security_groups
                let sgOps : List Op :=
                  [Op.createSecurityGroup albSg.groupName vpcId,
                   Op.authorizeIngress albSg.id albSg.ingress,
                   Op.createSecurityGroup ec2Sg.groupName vpcId,
                   Op.authorizeIngress ec2Sg.id ec2Sg.ingress]
                let keyOps : List Op :=
                  if keyExists then [] else [Op.createKeyPair KEY_NAME]
                let (ltId, createdLt) := create_launch_template ltw ec2Sg.id "lt-new"
                let ltOps : List Op :=
                  match createdLt with
                  | some d => [Op.createLaunchTemplate LAUNCH_TEMPLATE_NAME d]
                  | none => []
                let fleetOps : List Op :=
                  [Op.createLoadBalancer (PROJECT ++ "-alb")
                     (pubs.map SubnetRec.id) [albSg.id],
                   Op.createTargetGroup (PROJECT ++ "-tg") vpcId,
                   Op.createListener "alb-arn-0" "tg-arn-0",
                   create_auto_scaling_group ltId (privs.map SubnetRec.id) "tg-arn-0"]
                (.ok (),
                 vpcOps ++ igwOps ++ subnetOps ++ natOps ++ privAssocOps ++
                   sgOps ++ keyOps ++ ltOps ++ fleetOps)

/-- The provisioning plan `main` of `infrawithNAT.py` encodes: the call
order of the script, each step's logical output name, and the
previously-bound identifiers the source passes into the call.  Waits
(`wait_until_available`, the `nat_gateway_available` waiter) are marked
on the virtual-network and address-translator steps. -/
def plan : List ResourceSpec :=
  [⟨"vpc", .VirtualNetwork, [], true⟩,
   ⟨"igw", .Gateway, ["vpc"], false⟩,
   ⟨"pub_rt", .RouteTable, ["vpc", "igw"], false⟩,
   ⟨"public_subnets", .Subnet, ["vpc", "pub_rt"], false⟩,
   ⟨"private_subnets", .Subnet, ["vpc"], false⟩,
   ⟨"nat", .AddressTranslator, ["public_subnets"], true⟩,
   ⟨"private_rt", .RouteTable, ["vpc", "nat"], false⟩,
   ⟨"private_assoc", .RouteAssociation, ["private_rt", "private_subnets"], false⟩,
   ⟨"alb_sg", .SecurityGroup, ["vpc"], false⟩,
   ⟨"ec2_sg", .SecurityGroup, ["vpc", "alb_sg"], false⟩,
   ⟨"key", .KeyPair, [], false⟩,
   ⟨"lt", .LaunchTemplate, ["ec2_sg"], false⟩,
   ⟨"alb", .LoadBalancer, ["public_subnets", "alb_sg"], false⟩,
   ⟨"tg", .TargetGroup, ["vpc"], false⟩,
   ⟨"listener", .Listener, ["alb", "tg"], false⟩,
   ⟨"asg", .ScalingGroup, ["lt", "private_subnets", "tg"], false⟩]

/-- The fleet-layer suffix of the plan (security groups onward). -/
def fleetPlan : List ResourceSpec := plan.drop 8

end NAT

namespace Latest

/-! Embedding of `infraLatest.py`.  The `Op` traces record the
resources each function successfully creates, in call order. -/

def PROJECT_NAME : String := "vijay-new-43-backend-project"

def REGION : String := "eu-central-1"

def AMI_ID : String := "ami-04e601abe3e1a910f"

def INSTANCE_TYPE : String := "t2.micro"

def KEY_NAME : String := PROJECT_NAME ++ "-key"

/-- Provider state consulted by the run of `infraLatest.py`. -/
structure World where
  vpcs : List Vpc
  vpcCreateErr : Option String
  keyExists : Bool
  existingLt : Option (String × LtData)
deriving Repr

/-- Embeds `create_vpc` of `infraLatest.py`: if the account already has
at least 4 VPCs (default ones included), reuse `vpcs[0]` without any
create attempt; otherwise call the provider's create, and any client
error (including `VpcLimitExceeded`) propagates uncaught. -/
def create_vpc (w : World) (freshId : String) : Except String (String × List Op) :=
  if 4 ≤ w.vpcs.length then
    match w.vpcs with
    | v :: _ => .ok (v.id, [])
    | [] => .error "IndexError"
  else
    match w.vpcCreateErr with
    | none => .ok (freshId, [Op.createVpc "10.102.0.0/16"])
    | some code => .error code

/-- Embeds `create_internet_gateway` of `infraLatest.py`. -/
def create_internet_gateway (vpcId : String) : String × List Op :=
  ("igw-0", [Op.createIgw vpcId])

/-- Embeds `create_subnets` of `infraLatest.py`: two public subnets in
zones a and b of the region, with hard-coded CIDRs. -/
def create_subnets (vpcId : String) : List String × List Op :=
  (["subnet-a", "subnet-b"],
   [Op.createSubnet vpcId "10.102.1.0/24" (REGION ++ "a"),
    Op.createSubnet vpcId "10.102.2.0/24" (REGION ++ "b")])

/-- Embeds `create_route_table` of `infraLatest.py`: creates a route
table and a default route to the internet gateway, and returns the
route table's id.  No association with any subnet is performed. -/
def create_route_table (vpcId igwId : String) : String × List Op :=
  ("rt-0", [Op.createRouteTable vpcId, Op.createRoute "rt-0" "0.0.0.0/0" igwId])

/-- Embeds `create_security_group` of `infraLatest.py`: one group whose
ingress allows SSH (22) and HTTP (80), both from `0.0.0.0/0`. -/
def create_security_group (vpcId : String) : NAT.SgRec × List Op :=
  let sg : NAT.SgRec :=
    ⟨"sg-0", PROJECT_NAME ++ "-sg",
      [⟨"tcp", 22, 22, ["0.0.0.0/0"], []⟩,
       ⟨"tcp", 80, 80, ["0.0.0.0/0"], []⟩]⟩
  (sg, [Op.createSecurityGroup sg.groupName vpcId,
        Op.authorizeIngress sg.id sg.ingress])

/-- Embeds `create_key_pair` of `infraLatest.py`: on
`InvalidKeyPair.Duplicate` the error is caught and creation skipped.
Returns whether private key material was written to disk this run. -/
def create_key_pair (keyExists : Bool) : Bool × List Op :=
  if keyExists then (false, []) else (true, [Op.createKeyPair KEY_NAME])

/-- Embeds `create_launch_template` of `infraLatest.py`: try to create;
on `InvalidLaunchTemplateName.AlreadyExistsException`, describe the
template by name and return the existing id verbatim, with no
comparison against the newly requested parameters. -/
def create_launch_template (w : World) (sgId freshId : String) :
    String × List Op :=
  match w.existingLt with
  | none =>
      (freshId,
       [Op.createLaunchTemplate (PROJECT_NAME ++ "-lt")
          ⟨AMI_ID, INSTANCE_TYPE, KEY_NAME, [sgId], "userdata-nginx"⟩])
  | some (ltId, _) => (ltId, [])

/-- Embeds `create_load_balancer` of `infraLatest.py`. -/
def create_load_balancer (subnetIds : List String) (sgId : String) :
    String × List Op :=
  ("alb-arn-0", [Op.createLoadBalancer (PROJECT_NAME ++ "-alb") subnetIds [sgId]])

/-- Embeds `create_target_group` of `infraLatest.py`. -/
def create_target_group (vpcId : String) : String × List Op :=
  ("tg-arn-0", [Op.createTargetGroup (PROJECT_NAME ++ "-tg") vpcId])

/-- Embeds `create_listener` of `infraLatest.py`. -/
def create_listener (albArn tgArn : String) : List Op :=
  [Op.createListener albArn tgArn]

/-- Embeds `create_asg` of `infraLatest.py`: the auto-scaling group is
created over the given subnets with the target group attached. -/
def create_asg (ltId : String) (subnetIds : List String) (tgArn : String) :
    List Op :=
  [Op.createAsg (PROJECT_NAME ++ "-asg") ltId subnetIds [tgArn]]

/-- Embeds `main` of `infraLatest.py`: the exact call order of the
script, threading identifiers as the source does.  The identifier
returned by `create_route_table` is bound to no variable in the source
and is consumed by no later call. -/
def main (w : World) (freshVpcId : String) : Except String (List Op) :=
  match create_vpc w freshVpcId with
  | .error e => .error e
  | .ok (vpcId, ops1) =>
      let (igwId, ops2) := create_internet_gateway vpcId
      let (subnetIds, ops3) := create_subnets vpcId
      let (_discardedRtId, ops4) := create_route_table vpcId igwId
      let (sg, ops5) := create_security_group vpcId
      let (_written, ops6) := create_key_pair w.keyExists
      let (ltId, ops7) := create_launch_template w sg.id "lt-0"
      let (albArn, ops8) := create_load_balancer subnetIds sg.id
      let (tgArn, ops9) := create_target_group vpcId
      let ops10 := create_listener albArn tgArn
      let ops11 := create_asg ltId subnetIds tgArn
      .ok (ops1 ++ ops2 ++ ops3 ++ ops4 ++ ops5 ++ ops6 ++ ops7 ++ ops8 ++
           ops9 ++ ops10 ++ ops11)

/-- The provisioning plan `main` of `infraLatest.py` encodes: call
order, logical output names, and the identifiers the source threads
between calls.  The route-table step's output is discarded by `main`,
so no later step lists it as an input, and no route-association step
exists. -/
def plan : List ResourceSpec :=
  [⟨"vpc", .VirtualNetwork, [], true⟩,
   ⟨"igw", .Gateway, ["vpc"], false⟩,
   ⟨"subnets", .Subnet, ["vpc"], false⟩,
   ⟨"route_table", .RouteTable, ["vpc", "igw"], false⟩,
   ⟨"sg", .SecurityGroup, ["vpc"], false⟩,
   ⟨"key", .KeyPair, [], false⟩,
   ⟨"lt", .LaunchTemplate, ["sg"], false⟩,
   ⟨"alb", .LoadBalancer, ["subnets", "sg"], false⟩,
   ⟨"tg", .TargetGroup, ["vpc"], false⟩,
   ⟨"listener", .Listener, ["alb", "tg"], false⟩,
   ⟨"asg", .ScalingGroup, ["lt", "subnets", "tg"], false⟩]

/-- The fleet-layer suffix of the plan (security group onward). -/
def fleetPlan : List ResourceSpec := plan.drop 4

end Latest

namespace ALB

/-! Embedding of `infracreationWithALB.py`. -/

def PROJECT_NAME : String := "vijay-new-3-backend-project"

def KEY_NAME : String := PROJECT_NAME ++ "-key"

def AMI_ID : String := "ami-0df7a207adb9748c7"

def INSTANCE_TYPE : String := "t3.medium"

/-- Embeds `create_security_group` of `infracreationWithALB.py`: one
group whose ingress allows SSH (22) and HTTP (80), both from
`0.0.0.0/0`. -/
def create_security_group (vpcId : String) : NAT.SgRec × List Op :=
  let sg : NAT.SgRec :=
    ⟨"sg-0", PROJECT_NAME ++ "-sg",
      [⟨"tcp", 22, 22, ["0.0.0.0/0"], []⟩,
       ⟨"tcp", 80, 80, ["0.0.0.0/0"], []⟩]⟩
  (sg, [Op.createSecurityGroup sg.groupName vpcId,
        Op.authorizeIngress sg.id sg.ingress])

/-- Embeds `create_key_pair` of `infracreationWithALB.py`: the
`create_key_pair` call has no exception handler, so when a key pair of
the same name already exists the `InvalidKeyPair.Duplicate` client
error propagates and the run aborts.  On success returns the key name
and whether key material was written. -/
def create_key_pair (keyExists : Bool) : Except String (String × Bool) :=
  if keyExists then .error "InvalidKeyPair.Duplicate" else .ok (KEY_NAME, true)

/-- Embeds the first (shadowed) definition of `create_launch_template`
in `infracreationWithALB.py` (lines 80-99): uses the module-level
`AMI_ID` and `INSTANCE_TYPE` and a raw, unencoded user-data string. -/
def create_launch_template_v1 (sgId keyName : String) : LtData :=
  ⟨AMI_ID, INSTANCE_TYPE, keyName, [sgId], "userdata-httpd-raw"⟩

/-- Embeds the second definition of `create_launch_template` in
`infracreationWithALB.py` (lines 101-130), which in Python shadows the
first (the later `def` of the same name rebinds it): hard-coded image
id `ami-004e960cde33f9146` and instance type `t2.micro`, base64-encoded
user data. -/
def create_launch_template_v2 (sgId keyName : String) : LtData :=
  ⟨"ami-004e960cde33f9146", "t2.micro", keyName, [sgId], "userdata-nginx-b64"⟩

/-- The effective `create_launch_template` at the time `main` runs: the
second definition, because in Python a later `def` of the same name
replaces the earlier one in the module namespace. -/
def create_launch_template (sgId keyName : String) : LtData :=
  create_launch_template_v2 sgId keyName

/-- The provisioning plan `main` of `infracreationWithALB.py` encodes:
call order, logical output names, and the identifiers the source
threads between calls.  The auto-scaling group is created before the
load balancer / target group / listener, and
`create_auto_scaling_group` receives no target-group input (the source
passes none and sets no `TargetGroupARNs`). -/
def plan : List ResourceSpec :=
  [⟨"vpc", .VirtualNetwork, [], true⟩,
   ⟨"igw", .Gateway, ["vpc"], false⟩,
   ⟨"route_table", .RouteTable, ["vpc", "igw"], false⟩,
   ⟨"subnets", .Subnet, ["vpc", "route_table"], false⟩,
   ⟨"sg", .SecurityGroup, ["vpc"], false⟩,
   ⟨"key", .KeyPair, [], false⟩,
   ⟨"lt", .LaunchTemplate, ["sg", "key"], false⟩,
   ⟨"asg", .ScalingGroup, ["lt", "subnets"], false⟩,
   ⟨"alb", .LoadBalancer, ["vpc", "subnets", "sg"], false⟩,
   ⟨"tg", .TargetGroup, ["vpc"], false⟩,
   ⟨"listener", .Listener, ["alb", "tg"], false⟩]

/-- The fleet-layer suffix of the plan (security group onward). -/
def fleetPlan : List ResourceSpec := plan.drop 4

/-- Embeds `create_auto_scaling_group` of `infracreationWithALB.py`:
the group is created from the launch template over the subnets, with
an empty list of attached target groups. -/
def create_auto_scaling_group (ltId : String) (subnetIds : List String) : Op :=
  Op.createAsg (PROJECT_NAME ++ "-asg") ltId subnetIds []

end ALB

/-- Modelled from the spec: the Readiness Waiter (spec section 4.2).  The
scripts delegate the polling loop to the provider library's built-in
waiters (`wait_until_available` for the virtual network, the
`nat_gateway_available` waiter for the address translator), whose loop is
not part of this repository; it is transcribed from the spec's words: poll
the provider's reported state at a bounded interval until it is
"available" or the wait budget elapses.  `state t` is the state the
provider reports at the t-th poll and the remaining-poll budget is the
last argument.  Returns the poll index at which the resource was seen
available, or fails with `ReadinessTimeout`. -/
def waitFrom (state : Nat → String) (t : Nat) : Nat → Except String Nat
  | 0 => if state t = "available" then .ok t else .error "ReadinessTimeout"
  | fuel + 1 =>
      if state t = "available" then .ok t else waitFrom state (t + 1) fuel

/-- Modelled from the spec: `wait_until_ready(handle, timeout)` (spec
section 4.2), polling from time 0 with a budget of `timeout` polls. -/
def wait_until_ready (state : Nat → String) (timeout : Nat) : Except String Nat :=
  waitFrom state 0 timeout

lemma waitFrom_ok_bound (state : Nat → String) :
    ∀ (fuel t r : Nat), waitFrom state t fuel = .ok r →
      t ≤ r ∧ r ≤ t + fuel ∧ state r = "available" := by
  intro fuel
  induction fuel with
  | zero =>
      intro t r h
      simp only [waitFrom] at h
      split at h
      · cases h
        exact ⟨Nat.le_refl _, by omega, by assumption⟩
      · cases h
  | succ n ih =>
      intro t r h
      simp only [waitFrom] at h
      split at h
      · cases h
        exact ⟨Nat.le_refl _, by omega, by assumption⟩
      · obtain ⟨h1, h2, h3⟩ := ih (t + 1) r h
        exact ⟨by omega, by omega, h3⟩

lemma waitFrom_ok_of_exists (state : Nat → String) :
    ∀ (fuel t u : Nat), t ≤ u → u ≤ t + fuel → state u = "available" →
      ∃ r, waitFrom state t fuel = .ok r := by
  intro fuel
  induction fuel with
  | zero =>
      intro t u h1 h2 h3
      have hu : u = t := by omega
      subst hu
      exact ⟨u, by simp [waitFrom, h3]⟩
  | succ n ih =>
      intro t u h1 h2 h3
      by_cases hc : state t = "available"
      · exact ⟨t, by simp [waitFrom, hc]⟩
      · have hne : t ≠ u := fun he => hc (he ▸ h3)
        obtain ⟨r, hr⟩ := ih (t + 1) u (by omega) (by omega) h3
        exact ⟨r, by simp [waitFrom, hc, hr]⟩

lemma waitFrom_timeout (state : Nat → String) :
    ∀ (fuel t : Nat), (∀ u, t ≤ u → u ≤ t + fuel → state u ≠ "available") →
      waitFrom state t fuel = .error "ReadinessTimeout" := by
  intro fuel
  induction fuel with
  | zero =>
      intro t h
      have := h t (Nat.le_refl _) (by omega)
      simp [waitFrom, this]
  | succ n ih =>
      intro t h
      have ht := h t (Nat.le_refl _) (by omega)
      have hrest := ih (t + 1) (fun u h1 h2 => h u (by omega) (by omega))
      simp [waitFrom, ht, hrest]

/-- C1 counterexample: in `infracreationWithALB.py` the claimed property
fails — the ScalingGroup step occurs strictly before the TargetGroup
step, the ScalingGroup step declares no target-group input, at the
point the ScalingGroup step is reached the name `tg` is unbound in the
executor's context, and `create_auto_scaling_group` creates the group
with an empty list of attached target groups. -/
theorem C1_counterexample :
    ALB.plan.findIdx (fun s => s.kind == ResKind.ScalingGroup) <
      ALB.plan.findIdx (fun s => s.kind == ResKind.TargetGroup) ∧
    (∀ s ∈ ALB.plan, s.kind = ResKind.ScalingGroup →
      s.inputs.contains "tg" = false) ∧
    (runPlan (ALB.plan.take 7) []).map (fun ctx => ctx.contains "tg") =
      some false ∧
    ALB.create_auto_scaling_group "lt-0" ["subnet-1", "subnet-2"] =
      Op.createAsg (ALB.PROJECT_NAME ++ "-asg") "lt-0"
        ["subnet-1", "subnet-2"] [] := by
  decide

/-- C1 (amended): in `infrawithNAT.py` the fleet-layer plan runs in the
order LoadBalancerSecurityGroup, ComputeSecurityGroup, KeyPair,
LaunchTemplate, LoadBalancer, TargetGroup, Listener, ScalingGroup, the
TargetGroup step precedes the ScalingGroup step which lists it as an
input, and the auto-scaling group is created with the target group
attached; in `infraLatest.py` the same holds except a single security
group plays both the load-balancer and compute roles; in
`infracreationWithALB.py` the ScalingGroup step instead precedes the
TargetGroup step and lists no target-group input.  In all three plans
the executor never reaches a step whose declared inputs are unbound. -/
theorem C1_fleet_order :
    NAT.fleetPlan.map (fun s => s.kind) =
      [ResKind.SecurityGroup, ResKind.SecurityGroup, ResKind.KeyPair,
       ResKind.LaunchTemplate, ResKind.LoadBalancer, ResKind.TargetGroup,
       ResKind.Listener, ResKind.ScalingGroup] ∧
    NAT.fleetPlan.map (fun s => s.name) =
      ["alb_sg", "ec2_sg", "key", "lt", "alb", "tg", "listener", "asg"] ∧
    Latest.fleetPlan.map (fun s => s.kind) =
      [ResKind.SecurityGroup, ResKind.KeyPair, ResKind.LaunchTemplate,
       ResKind.LoadBalancer, ResKind.TargetGroup, ResKind.Listener,
       ResKind.ScalingGroup] ∧
    ALB.fleetPlan.map (fun s => s.kind) =
      [ResKind.SecurityGroup, ResKind.KeyPair, ResKind.LaunchTemplate,
       ResKind.ScalingGroup, ResKind.LoadBalancer, ResKind.TargetGroup,
       ResKind.Listener] ∧
    (runPlan NAT.plan []).isSome = true ∧
    (runPlan Latest.plan []).isSome = true ∧
    (runPlan ALB.plan []).isSome = true ∧
    NAT.plan.findIdx (fun s => s.kind == ResKind.TargetGroup) <
      NAT.plan.findIdx (fun s => s.kind == ResKind.ScalingGroup) ∧
    Latest.plan.findIdx (fun s => s.kind == ResKind.TargetGroup) <
      Latest.plan.findIdx (fun s => s.kind == ResKind.ScalingGroup) ∧
    (∀ s ∈ NAT.plan, s.kind = ResKind.ScalingGroup →
      s.inputs.contains "tg" = true) ∧
    (∀ s ∈ Latest.plan, s.kind = ResKind.ScalingGroup →
      s.inputs.contains "tg" = true) ∧
    NAT.create_auto_scaling_group "lt-0" ["priv-subnet-0", "priv-subnet-1"]
        "tg-arn-0" =
      Op.createAsg (NAT.PROJECT ++ "-asg") "lt-0"
        ["priv-subnet-0", "priv-subnet-1"] ["tg-arn-0"] ∧
    Latest.create_asg "lt-0" ["subnet-a", "subnet-b"] "tg-arn-0" =
      [Op.createAsg (Latest.PROJECT_NAME ++ "-asg") "lt-0"
        ["subnet-a", "subnet-b"] ["tg-arn-0"]] := by
  decide

/-- C1 witness: the ScalingGroup step of the `infrawithNAT.py` plan
declares the target group among its inputs. -/
theorem C1_witness :
    (⟨"asg", ResKind.ScalingGroup, ["lt", "private_subnets", "tg"],
        false⟩ : ResourceSpec).inputs.contains "tg" = true :=
  C1_fleet_order.2.2.2.2.2.2.2.2.2.1
    ⟨"asg", ResKind.ScalingGroup, ["lt", "private_subnets", "tg"], false⟩
    (by decide) rfl

/-- C2 counterexample: in `infraLatest.py` a run in which the provider's
create call fails with `VpcLimitExceeded` while a non-default virtual
network exists does abort — `create_vpc` has no handler for the error,
which propagates out of the run. -/
theorem C2_counterexample :
    Latest.create_vpc
        ⟨[⟨"vpc-default", true⟩, ⟨"vpc-a", false⟩, ⟨"vpc-b", false⟩],
         some "VpcLimitExceeded", false, none⟩ "vpc-new" =
      .error "VpcLimitExceeded" := by
  rfl

/-- C2 (amended): in `infrawithNAT.py`, when virtual-network creation
fails with the limit-exceeded code and at least one non-default virtual
network exists, the run proceeds using the first such network's
identifier; in `infraLatest.py` the limit is instead pre-checked (four
or more existing networks, default ones included, cause reuse of the
first listed network) and an actual limit-exceeded failure of the
create call is not caught and aborts the run. -/
theorem C2_vpc_limit_reuse :
    (∀ (w : NAT.VpcWorld) (v : Vpc) (fid : String),
       w.createErr = some "VpcLimitExceeded" →
       w.vpcs.find? (fun x => !x.isDefault) = some v →
       NAT.create_vpc w fid = .ok v.id) ∧
    (∀ (lw : Latest.World) (fid : String),
       lw.vpcCreateErr = some "VpcLimitExceeded" → lw.vpcs.length < 4 →
       Latest.create_vpc lw fid = .error "VpcLimitExceeded") := by
  constructor
  · intro w v fid herr hv
    simp [NAT.create_vpc, herr, hv]
  · intro lw fid herr hlen
    simp [Latest.create_vpc, herr, Nat.not_le.mpr hlen]

/-- C2 witness: the reuse branch and the aborting branch, each at a
concrete provider state. -/
theorem C2_witness :
    NAT.create_vpc
        ⟨some "VpcLimitExceeded", [⟨"vpc-default", true⟩, ⟨"vpc-1", false⟩]⟩
        "vpc-new" = .ok "vpc-1" ∧
    Latest.create_vpc
        ⟨[⟨"vpc-default", true⟩, ⟨"vpc-1", false⟩], some "VpcLimitExceeded",
         false, none⟩ "vpc-new" = .error "VpcLimitExceeded" :=
  ⟨C2_vpc_limit_reuse.1 _ ⟨"vpc-1", false⟩ "vpc-new" (by decide) (by decide),
   C2_vpc_limit_reuse.2 _ "vpc-new" (by decide) (by decide)⟩

/-- C3: with two availability zones and the two configured public/private
CIDR pairs, the network build of `infrawithNAT.py` produces exactly 2
public subnets and 2 private subnets whose CIDRs are taken positionally
from the configured lists, one NAT gateway placed in the first public
subnet, and route-table associations for all 4 subnets: the public route
table with both public subnets and the private route table with both
private subnets. -/
theorem C3_topology (az1 az2 : String) :
    NAT.build_network "vpc-0" "pub-rt-0" [az1, az2] =
      .ok ([⟨"pub-subnet-0", "10.201.1.0/24", az1⟩,
            ⟨"pub-subnet-1", "10.201.2.0/24", az2⟩],
           [⟨"priv-subnet-0", "10.201.101.0/24", az1⟩,
            ⟨"priv-subnet-1", "10.201.102.0/24", az2⟩],
           ⟨"nat-0", "pub-subnet-0", "priv-rt-0"⟩,
           [("pub-rt-0", "pub-subnet-0"), ("pub-rt-0", "pub-subnet-1"),
            ("priv-rt-0", "priv-subnet-0"),
            ("priv-rt-0", "priv-subnet-1")]) := by
  rfl

/-- C3 witness: the network build evaluated at the two zones of the
configured region. -/
theorem C3_witness :
    NAT.build_network "vpc-0" "pub-rt-0" ["eu-central-1a", "eu-central-1b"] =
      .ok ([⟨"pub-subnet-0", "10.201.1.0/24", "eu-central-1a"⟩,
            ⟨"pub-subnet-1", "10.201.2.0/24", "eu-central-1b"⟩],
           [⟨"priv-subnet-0", "10.201.101.0/24", "eu-central-1a"⟩,
            ⟨"priv-subnet-1", "10.201.102.0/24", "eu-central-1b"⟩],
           ⟨"nat-0", "pub-subnet-0", "priv-rt-0"⟩,
           [("pub-rt-0", "pub-subnet-0"), ("pub-rt-0", "pub-subnet-1"),
            ("priv-rt-0", "priv-subnet-0"),
            ("priv-rt-0", "priv-subnet-1")]) :=
  C3_topology "eu-central-1a" "eu-central-1b"

/-- C4 counterexample: in `infraLatest.py` the security group attached to
the launch template (the compute role) authorizes HTTP port 80 from the
open CIDR `0.0.0.0/0` and from no security-group reference, refuting the
claim for that script's runs. -/
theorem C4_counterexample :
    (Latest.create_security_group "vpc-0").1.ingress.filter
        (fun p => p.fromPort == 80) =
      [⟨"tcp", 80, 80, ["0.0.0.0/0"], []⟩] ∧
    Latest.create_launch_template ⟨[], none, false, none⟩ "sg-0" "lt-0" =
      ("lt-0",
       [Op.createLaunchTemplate (Latest.PROJECT_NAME ++ "-lt")
          ⟨Latest.AMI_ID, Latest.INSTANCE_TYPE, Latest.KEY_NAME, ["sg-0"],
           "userdata-nginx"⟩]) := by
  constructor
  · rfl
  · rfl

/-- C4 (amended): in `infrawithNAT.py` the compute security group's
inbound HTTP rule names the load-balancer security group's identifier
as its only allowed source and no CIDR; in `infraLatest.py` and
`infracreationWithALB.py` the single shared security group's inbound
HTTP rule instead allows the open CIDR `0.0.0.0/0`. -/
theorem C4_http_rule :
    NAT.create_security_groups.2.ingress.filter (fun p => p.fromPort == 80) =
      [⟨"tcp", 80, 80, [], [NAT.create_security_groups.1.id]⟩] ∧
    (∀ p ∈ NAT.create_security_groups.2.ingress, p.fromPort = 80 →
       p.cidrSources = [] ∧ p.groupSources = [NAT.create_security_groups.1.id]) ∧
    (∀ vpcId : String,
       (Latest.create_security_group vpcId).1.ingress.filter
           (fun p => p.fromPort == 80) =
         [⟨"tcp", 80, 80, ["0.0.0.0/0"], []⟩]) ∧
    (∀ vpcId : String,
       (ALB.create_security_group vpcId).1.ingress.filter
           (fun p => p.fromPort == 80) =
         [⟨"tcp", 80, 80, ["0.0.0.0/0"], []⟩]) :=
  ⟨by decide, by decide, fun _ => rfl, fun _ => rfl⟩

/-- C4 witness: the amended rule shapes at a concrete virtual-network
identifier. -/
theorem C4_witness :
    ((⟨"tcp", 80, 80, [], ["sg-alb"]⟩ : IpPermission).cidrSources = [] ∧
     (⟨"tcp", 80, 80, [], ["sg-alb"]⟩ : IpPermission).groupSources =
       [NAT.create_security_groups.1.id]) ∧
    (Latest.create_security_group "vpc-1").1.ingress.filter
        (fun p => p.fromPort == 80) =
      [⟨"tcp", 80, 80, ["0.0.0.0/0"], []⟩] ∧
    (ALB.create_security_group "vpc-1").1.ingress.filter
        (fun p => p.fromPort == 80) =
      [⟨"tcp", 80, 80, ["0.0.0.0/0"], []⟩] :=
  ⟨C4_http_rule.2.1 ⟨"tcp", 80, 80, [], ["sg-alb"]⟩ (by decide) rfl,
   C4_http_rule.2.2.1 "vpc-1", C4_http_rule.2.2.2 "vpc-1"⟩

/-- C5: availability-zone selection takes the first two zones the
provider returns; when fewer than two zones are returned the run of
`infrawithNAT.py` fails before any resource-creating call, with an
empty creation trace; with at least two zones the run creates its
subnets in exactly the first two returned zones. -/
theorem C5_az_selection :
    (∀ l : List String, NAT.choose_azs l = l.take 2) ∧
    (∀ (l : List String) (w : NAT.VpcWorld) (k : Bool) (ltw : NAT.LtWorld),
       l.length < 2 →
       NAT.main_run l w k ltw = (.error "InsufficientZones", [])) ∧
    (∀ (az1 az2 : String) (rest : List String),
       (NAT.main_run (az1 :: az2 :: rest) ⟨none, []⟩ false ⟨none⟩).2.filterMap
           Op.subnetAz = [az1, az1, az2, az2]) := by
  refine ⟨fun l => rfl, ?_, fun az1 az2 rest => rfl⟩
  intro l w k ltw hl
  have h2 : (NAT.choose_azs l).length < 2 := by
    simp only [NAT.choose_azs, List.length_take]
    omega
  simp [NAT.main_run, h2]

/-- C5 witness: a region with a single zone aborts with an empty trace;
a region with two zones creates subnets in those two zones. -/
theorem C5_witness :
    NAT.main_run ["eu-central-1a"] ⟨none, []⟩ false ⟨none⟩ =
      (.error "InsufficientZones", []) ∧
    (NAT.main_run ["eu-central-1a", "eu-central-1b"] ⟨none, []⟩ false
        ⟨none⟩).2.filterMap Op.subnetAz =
      ["eu-central-1a", "eu-central-1a", "eu-central-1b", "eu-central-1b"] :=
  ⟨C5_az_selection.2.1 _ _ _ _ (by decide),
   C5_az_selection.2.2 "eu-central-1a" "eu-central-1b" []⟩

/-- C6: the readiness wait succeeds exactly when the provider's reported
state reaches "available" within the timeout budget, fails with
`ReadinessTimeout` otherwise, never polls past the budget, and, across
all three scripts' plans, a readiness wait is invoked for a step exactly
when its kind is VirtualNetwork or AddressTranslator. -/
theorem C6_readiness_waiter :
    (∀ (state : Nat → String) (timeout : Nat),
       ((∃ r, wait_until_ready state timeout = .ok r) ↔
          ∃ t, t ≤ timeout ∧ state t = "available") ∧
       (∀ r, wait_until_ready state timeout = .ok r → r ≤ timeout) ∧
       ((∀ t, t ≤ timeout → state t ≠ "available") →
          wait_until_ready state timeout = .error "ReadinessTimeout")) ∧
    (∀ s ∈ NAT.plan ++ Latest.plan ++ ALB.plan,
       s.waited = true ↔
         (s.kind = ResKind.VirtualNetwork ∨
          s.kind = ResKind.AddressTranslator)) := by
  constructor
  · intro state timeout
    refine ⟨⟨?_, ?_⟩, ?_, ?_⟩
    · rintro ⟨r, hr⟩
      obtain ⟨_, h2, h3⟩ := waitFrom_ok_bound state timeout 0 r hr
      exact ⟨r, by omega, h3⟩
    · rintro ⟨t, ht, hav⟩
      exact waitFrom_ok_of_exists state timeout 0 t (Nat.zero_le _) (by omega) hav
    · intro r hr
      obtain ⟨_, h2, _⟩ := waitFrom_ok_bound state timeout 0 r hr
      omega
    · intro h
      exact waitFrom_timeout state timeout 0 (fun u _ h2 => h u (by omega))
  · decide

/-- C6 witness: a resource becoming available at poll 3 within a budget
of 10 succeeds; a resource that never leaves "pending" within a budget
of 2 fails with `ReadinessTimeout`. -/
theorem C6_witness :
    (∃ r, wait_until_ready
        (fun t => if t == 3 then "available" else "pending") 10 = .ok r) ∧
    wait_until_ready (fun _ => "pending") 2 = .error "ReadinessTimeout" :=
  ⟨(C6_readiness_waiter.1 _ 10).1.mpr ⟨3, by decide, by decide⟩,
   (C6_readiness_waiter.1 _ 2).2.2 (fun t _ => by decide)⟩

/-- C7 counterexample: in `infracreationWithALB.py` a run in which the
key pair already exists aborts — `create_key_pair` has no handler, so
the `InvalidKeyPair.Duplicate` client error propagates fatally instead
of being recovered as a reuse. -/
theorem C7_counterexample :
    ALB.create_key_pair true = .error "InvalidKeyPair.Duplicate" := by
  rfl

/-- C7 (amended): in `infrawithNAT.py` and `infraLatest.py`, when a key
pair of the same logical name already exists the duplicate error is
recovered as a reuse, no private key material is written this run, and
the downstream launch template references the key by its configured
name alone; in `infracreationWithALB.py` the duplicate error is not
caught and the run aborts. -/
theorem C7_keypair_reuse :
    NAT.create_keypair true = .ok false ∧
    Latest.create_key_pair true = (false, []) ∧
    (∀ sgId fid : String,
       NAT.create_launch_template ⟨none⟩ sgId fid =
         (fid, some ⟨NAT.AMI_ID, NAT.INSTANCE_TYPE, NAT.KEY_NAME, [sgId],
                     "userdata-httpd"⟩)) ∧
    (∀ (vpcs : List Vpc) (ce : Option String) (sgId fid : String),
       Latest.create_launch_template ⟨vpcs, ce, true, none⟩ sgId fid =
         (fid, [Op.createLaunchTemplate (Latest.PROJECT_NAME ++ "-lt")
                  ⟨Latest.AMI_ID, Latest.INSTANCE_TYPE, Latest.KEY_NAME,
                   [sgId], "userdata-nginx"⟩])) ∧
    ALB.create_key_pair true = .error "InvalidKeyPair.Duplicate" :=
  ⟨rfl, rfl, fun _ _ => rfl, fun _ _ _ _ => rfl, rfl⟩

/-- C7 witness: the launch templates reference the configured key name
at concrete inputs, with the key pair already existing. -/
theorem C7_witness :
    NAT.create_launch_template ⟨none⟩ "sg-ec2" "lt-new" =
      ("lt-new", some ⟨NAT.AMI_ID, NAT.INSTANCE_TYPE, NAT.KEY_NAME,
                       ["sg-ec2"], "userdata-httpd"⟩) ∧
    Latest.create_launch_template ⟨[], none, true, none⟩ "sg-0" "lt-0" =
      ("lt-0", [Op.createLaunchTemplate (Latest.PROJECT_NAME ++ "-lt")
                  ⟨Latest.AMI_ID, Latest.INSTANCE_TYPE, Latest.KEY_NAME,
                   ["sg-0"], "userdata-nginx"⟩]) :=
  ⟨C7_keypair_reuse.2.2.1 "sg-ec2" "lt-new",
   C7_keypair_reuse.2.2.2.1 [] none "sg-0" "lt-0"⟩

/-- C8: when a launch template of the configured name already exists,
`create_launch_template` in `infrawithNAT.py` and `infraLatest.py`
returns the existing template's identifier verbatim — for every stored
parameter set and every newly requested security group — creating
nothing and comparing nothing. -/
theorem C8_lt_reuse_verbatim :
    (∀ (ltId : String) (d : LtData) (sgId fid : String),
       NAT.create_launch_template ⟨some (ltId, d)⟩ sgId fid = (ltId, none)) ∧
    (∀ (vpcs : List Vpc) (ce : Option String) (k : Bool) (ltId : String)
       (d : LtData) (sgId fid : String),
       Latest.create_launch_template ⟨vpcs, ce, k, some (ltId, d)⟩ sgId fid =
         (ltId, [])) :=
  ⟨fun _ _ _ _ => rfl, fun _ _ _ _ _ _ _ => rfl⟩

/-- C8 witness: a stale stored template whose image, size and boot
script all differ from the requested ones is still reused verbatim. -/
theorem C8_witness :
    NAT.create_launch_template
        ⟨some ("lt-old", ⟨"ami-stale", "t2.nano", "other-key", ["sg-9"],
                          "old-script"⟩)⟩ "sg-ec2" "lt-new" =
      ("lt-old", none) ∧
    Latest.create_launch_template
        ⟨[], none, false,
         some ("lt-old", ⟨"ami-stale", "t2.nano", "other-key", ["sg-9"],
                          "old-script"⟩)⟩ "sg-0" "lt-new" =
      ("lt-old", []) :=
  ⟨C8_lt_reuse_verbatim.1 "lt-old" _ "sg-ec2" "lt-new",
   C8_lt_reuse_verbatim.2 [] none false "lt-old" _ "sg-0" "lt-new"⟩

/-- C9: in `infracreationWithALB.py` the second definition of
`create_launch_template` shadows the first, so every run creates its
launch template with the hard-coded image `ami-004e960cde33f9146` and
instance type `t2.micro`, ignoring the module-level `AMI_ID`
(`ami-0df7a207adb9748c7`) and `INSTANCE_TYPE` (`t3.medium`) that the
shadowed first definition would have used. -/
theorem C9_shadowed_launch_template :
    (∀ sgId keyName : String,
       ALB.create_launch_template sgId keyName =
         ALB.create_launch_template_v2 sgId keyName) ∧
    (∀ sgId keyName : String,
       (ALB.create_launch_template sgId keyName).imageId =
           "ami-004e960cde33f9146" ∧
       (ALB.create_launch_template sgId keyName).instanceType = "t2.micro") ∧
    ALB.AMI_ID = "ami-0df7a207adb9748c7" ∧
    ALB.INSTANCE_TYPE = "t3.medium" ∧
    (∀ sgId keyName : String,
       (ALB.create_launch_template sgId keyName).imageId ≠ ALB.AMI_ID ∧
       (ALB.create_launch_template sgId keyName).instanceType ≠
         ALB.INSTANCE_TYPE) ∧
    (∀ sgId keyName : String,
       (ALB.create_launch_template_v1 sgId keyName).imageId = ALB.AMI_ID ∧
       (ALB.create_launch_template_v1 sgId keyName).instanceType =
         ALB.INSTANCE_TYPE) :=
  ⟨fun _ _ => rfl, fun _ _ => ⟨rfl, rfl⟩, rfl, rfl,
   fun _ _ => ⟨show "ami-004e960cde33f9146" ≠ ALB.AMI_ID by decide,
               show "t2.micro" ≠ ALB.INSTANCE_TYPE by decide⟩,
   fun _ _ => ⟨rfl, rfl⟩⟩

/-- C9 witness: the effective launch template at concrete inputs uses
the hard-coded image and size, not the module configuration. -/
theorem C9_witness :
    (ALB.create_launch_template "sg-0" "key-0").imageId =
        "ami-004e960cde33f9146" ∧
    (ALB.create_launch_template "sg-0" "key-0").instanceType = "t2.micro" ∧
    (ALB.create_launch_template "sg-0" "key-0").imageId ≠ ALB.AMI_ID :=
  ⟨(C9_shadowed_launch_template.2.1 "sg-0" "key-0").1,
   (C9_shadowed_launch_template.2.1 "sg-0" "key-0").2,
   (C9_shadowed_launch_template.2.2.2.2.1 "sg-0" "key-0").1⟩


lemma latest_create_vpc_ops_all (w : Latest.World) (fid vpcId : String)
    (ops : List Op) (h : Latest.create_vpc w fid = .ok (vpcId, ops)) :
    ops.all (fun op => !op.isRouteAssoc) = true := by
  unfold Latest.create_vpc at h
  split at h
  · split at h
    · simp only [Except.ok.injEq, Prod.mk.injEq] at h
      rw [← h.2]
      rfl
    · exact absurd h (by simp)
  · split at h
    · simp only [Except.ok.injEq, Prod.mk.injEq] at h
      rw [← h.2]
      rfl
    · exact absurd h (by simp)

/-- C10: in `infraLatest.py` the route table created with a default
route to the internet gateway is never associated with any subnet: no
completed run's trace contains a route-table association, the plan has
no route-association step, and no step consumes the route-table step's
output (its identifier is discarded by `main`), so both created subnets
stay on the virtual network's main route table. -/
theorem C10_route_table_never_associated :
    (∀ (w : Latest.World) (fid : String) (ops : List Op),
       Latest.main w fid = .ok ops →
       ops.all (fun op => !op.isRouteAssoc) = true) ∧
    Latest.plan.all (fun s => s.kind != ResKind.RouteAssociation) = true ∧
    Latest.plan.all (fun s => !(s.inputs.contains "route_table")) = true := by
  refine ⟨?_, by decide, by decide⟩
  intro w fid ops h
  unfold Latest.main at h
  cases hv : Latest.create_vpc w fid with
  | error e =>
      rw [hv] at h
      exact absurd h (by simp)
  | ok p =>
      obtain ⟨vpcId, ops1⟩ := p
      rw [hv] at h
      have h1 := latest_create_vpc_ops_all w fid vpcId ops1 hv
      have h2 : ∀ x ∈ ops1, x.isRouteAssoc = false := by
        intro x hx
        simpa using List.all_eq_true.mp h1 x hx
      obtain ⟨vpcs, ce, k, elt⟩ := w
      cases k <;> cases elt <;>
        simp only [Latest.create_internet_gateway, Latest.create_subnets,
          Latest.create_route_table, Latest.create_security_group,
          Latest.create_key_pair, Latest.create_launch_template,
          Latest.create_load_balancer, Latest.create_target_group,
          Latest.create_listener, Latest.create_asg, Except.ok.injEq,
          Bool.false_eq_true, if_false, if_true, ite_false, ite_true] at h <;>
        rw [← h] <;>
        (simp [List.all_append, Op.isRouteAssoc]; exact h2)

/-- C10 witness: a concrete completed run of `infraLatest.py` whose
trace contains no route-table association. -/
theorem C10_witness :
    List.all
      [Op.createVpc "10.102.0.0/16", Op.createIgw "vpc-new",
       Op.createSubnet "vpc-new" "10.102.1.0/24" "eu-central-1a",
       Op.createSubnet "vpc-new" "10.102.2.0/24" "eu-central-1b",
       Op.createRouteTable "vpc-new",
       Op.createRoute "rt-0" "0.0.0.0/0" "igw-0",
       Op.createSecurityGroup (Latest.PROJECT_NAME ++ "-sg") "vpc-new",
       Op.authorizeIngress "sg-0"
         [⟨"tcp", 22, 22, ["0.0.0.0/0"], []⟩,
          ⟨"tcp", 80, 80, ["0.0.0.0/0"], []⟩],
       Op.createKeyPair Latest.KEY_NAME,
       Op.createLaunchTemplate (Latest.PROJECT_NAME ++ "-lt")
         ⟨Latest.AMI_ID, Latest.INSTANCE_TYPE, Latest.KEY_NAME, ["sg-0"],
          "userdata-nginx"⟩,
       Op.createLoadBalancer (Latest.PROJECT_NAME ++ "-alb")
         ["subnet-a", "subnet-b"] ["sg-0"],
       Op.createTargetGroup (Latest.PROJECT_NAME ++ "-tg") "vpc-new",
       Op.createListener "alb-arn-0" "tg-arn-0",
       Op.createAsg (Latest.PROJECT_NAME ++ "-asg") "lt-0"
         ["subnet-a", "subnet-b"] ["tg-arn-0"]]
      (fun op => !op.isRouteAssoc) = true :=
  C10_route_table_never_associated.1 ⟨[], none, false, none⟩ "vpc-new" _ rfl
